import Mathlib

/-!
Shallow embedding of the resource-attribution, environment-classification and
metric-aggregation logic of the aws_audit repository (src/aws_audit/*), together
with theorems settling the frozen claims about its specification.

External collaborators (boto3 clients) are modelled as injected arguments:
a call that may raise a Python exception is modelled as an `Except Unit`
value or function, where `Except.error ()` stands for a raised exception and
`Except.ok` for a normal response.  All definitions are translated from the
Python source; line numbers in the doc comments refer to the source files.
-/

namespace AwsAudit

/-- Python str.startswith on character lists: `listStartsWith needle hay`
is true when `needle` is an initial segment of `hay`. -/
def listStartsWith : List Char → List Char → Bool
  | [], _ => true
  | _ :: _, [] => false
  | a :: as, b :: bs => a == b && listStartsWith as bs

/-- Python substring containment `needle in hay` on character lists. -/
def listHasSubstr (needle : List Char) : List Char → Bool
  | [] => listStartsWith needle []
  | c :: t => listStartsWith needle (c :: t) || listHasSubstr needle t

/-- Python `needle in hay` for strings. -/
def strContains (hay needle : String) : Bool :=
  listHasSubstr needle.data hay.data

/-- Python `hay.startswith(needle)` for strings. -/
def strStartsWith (hay needle : String) : Bool :=
  listStartsWith needle.data hay.data

/-- Python `s.lower()` (ASCII, as used by the audited code). -/
def strToLower (s : String) : String :=
  String.mk (s.data.map Char.toLower)

/-- Accumulator-based worker for `strSplit`, mirroring Python `str.split(sep)`
with an explicit separator (adjacent separators produce empty fields). -/
def splitOnCharAux (sep : Char) : List Char → List Char → List (List Char)
  | [], acc => [acc.reverse]
  | c :: rest, acc =>
    if c == sep then acc.reverse :: splitOnCharAux sep rest []
    else splitOnCharAux sep rest (c :: acc)

/-- Python `s.split(sep)` for a single-character separator. -/
def strSplit (sep : Char) (s : String) : List String :=
  (splitOnCharAux sep s.data []).map String.mk

/-- Python `tags.get(k)` over a tag dictionary modelled as an association list. -/
def lookupTag (tags : List (String × String)) (k : String) : Option String :=
  (tags.find? (fun p => p.1 == k)).map (fun p => p.2)

/-- Loop of LambdaAuditor.get_environment lines 117-120: the first key of the
list that is present in the tag dictionary yields its value. -/
def firstTagValue (tags : List (String × String)) : List String → Option String
  | [] => none
  | k :: ks =>
    match lookupTag tags k with
    | some v => some v
    | none => firstTagValue tags ks

/-- Tag keys recognised by LambdaAuditor.get_environment (lambda_audit.py line 117). -/
def lambda_env_tag_keys : List String := ["env", "environment", "stage", "deployment"]

/-- Name patterns checked by LambdaAuditor.get_environment (lambda_audit.py line 124). -/
def lambda_name_envs : List String := ["dev", "staging", "prod", "production", "test", "qa"]

/-- LambdaAuditor.get_environment, src/aws_audit/lambda/lambda_audit.py lines 114-128:
a present tag value is returned lowercased with no validation; the name check looks
for "-env" or "_env" substrings; the fallback is the string "all". -/
def lambda_get_environment (function_name : String) (tags : List (String × String)) : String :=
  match firstTagValue tags lambda_env_tag_keys with
  | some v => strToLower v
  | none =>
    let name_lower := strToLower function_name
    match lambda_name_envs.find? (fun env =>
        strContains name_lower ("-" ++ env) || strContains name_lower ("_" ++ env)) with
    | some env => env
    | none => "all"

/-- Environment indicator list shared by the DynamoDB, S3 and Step Functions
auditors (for example dynamodb_audit.py line 175). -/
def env_indicators : List String := ["dev", "prod", "staging", "test", "qa", "uat", "preprod"]

/-- Environment extraction inlined in DynamoDBAuditor.get_all_tables,
src/aws_audit/dynamodb/dynamodb_audit.py lines 172-181: the first
hyphen-delimited part of the lowercased table name that is an environment
indicator, with fallback "unknown". -/
def dynamodb_environment (table_name : String) : String :=
  ((strSplit '-' (strToLower table_name)).find?
    (fun part => decide (part ∈ env_indicators))).getD "unknown"

/-- Python truthiness of `a or b` on optional strings: an empty string is falsy. -/
def pyOrStr (a b : Option String) : Option String :=
  match a with
  | some v => if v = "" then b else some v
  | none => b

/-- Name-only part of S3Auditor.get_environment_from_name,
src/aws_audit/s3/s3_audit.py lines 251-268. -/
def s3_env_from_name_only (bucket_name : String) : String :=
  let bl := strToLower bucket_name
  match (strSplit '-' bl).find? (fun part => decide (part ∈ env_indicators)) with
  | some part => part
  | none =>
    if ["-dev-", ".dev.", "-development"].any (fun x => strContains bl x) then "dev"
    else if ["-staging-", "-stage-", ".staging.", ".stage."].any (fun x => strContains bl x) then
      "staging"
    else if ["-prod-", "-production-", ".prod.", ".production."].any
        (fun x => strContains bl x) then "prod"
    else "unknown"

/-- S3Auditor.get_environment_from_name, src/aws_audit/s3/s3_audit.py lines 244-268. -/
def s3_get_environment_from_name (bucket_name : String) (tags : List (String × String)) : String :=
  match pyOrStr (lookupTag tags "environment") (lookupTag tags "Environment") with
  | some v => if v = "" then s3_env_from_name_only bucket_name else strToLower v
  | none => s3_env_from_name_only bucket_name

/-- Fixed enumerated environment label set of the specification (spec section 3). -/
def environmentLabels : List String :=
  ["dev", "staging", "prod", "test", "qa", "uat", "preprod", "unknown"]

/-- SQSAuditor.get_message_count_30d, src/aws_audit/sqs/sqs_audit.py lines 91-121.
The argument models the cloudwatch get_metric_statistics call: `Except.error ()`
is a raised exception, `Except.ok dps` a response whose data points carry the
integer Sum values `dps`.  No data points yield 0; an exception yields -1. -/
def get_message_count_30d (query : Except Unit (List Int)) : Int :=
  match query with
  | Except.error _ => -1
  | Except.ok dps => if dps.isEmpty then 0 else dps.sum

/-- One period of the loop in LambdaAuditor.get_invocation_metrics,
src/aws_audit/lambda/lambda_audit.py lines 85-110: the data point sums are
added up, and a raised query is recorded as 0 (lines 108-110). -/
def lambda_invocations_for_period (query : Except Unit (List Int)) : Int :=
  match query with
  | Except.error _ => 0
  | Except.ok dps => dps.sum

/-- Contribution of one stage to the total in APIGatewayAuditor.get_api_metrics_30d,
src/aws_audit/api_gateway/api_gateway_audit.py lines 54-83: a raised per-stage
query is logged and skipped (continue), and an empty data point list adds nothing. -/
def stage_requests (query : String → Except Unit (List Int)) (stage : String) : Int :=
  match query stage with
  | Except.error _ => 0
  | Except.ok dps => if dps.isEmpty then 0 else dps.sum

/-- APIGatewayAuditor.get_api_metrics_30d (REST branch, the HTTP branch is
identical), src/aws_audit/api_gateway/api_gateway_audit.py lines 30-86.
`discover` models the get_rest_api and get_stages calls of lines 42-47: on a
raised discovery (lines 48-50) the function returns the metrics value that was
initialized to TotalRequests = 0 at lines 33-35; otherwise the per-stage
contributions are summed. -/
def get_api_metrics_30d (discover : Except Unit (List String))
    (query : String → Except Unit (List Int)) : Int :=
  match discover with
  | Except.error _ => 0
  | Except.ok stage_names => (stage_names.map (stage_requests query)).sum

/-- Outcome of one cloudformation describe_stack_resources call in
SQSAuditor.get_stack_name_from_arn: a response whose StackResources list is
non-empty (`found` carries the first StackName), a response with no
StackResources (`empty`), a ClientError whose text contains "does not exist"
(`notFoundError`), any other ClientError (`clientError`), or any other
exception (`otherError`). -/
inductive CFResult where
  | found (stackName : String)
  | empty
  | notFoundError
  | clientError
  | otherError
  deriving DecidableEq

/-- SQSAuditor._arn_to_url, src/aws_audit/sqs/sqs_audit.py lines 79-88. -/
def arn_to_url (queue_arn : String) : String :=
  let parts := strSplit ':' queue_arn
  if parts.length ≥ 6 then
    "https://sqs." ++ parts.getD 3 "" ++ ".amazonaws.com/" ++ parts.getD 4 "" ++ "/" ++
      parts.getD 5 ""
  else ""

/-- Candidate loop of SQSAuditor.get_stack_name_from_arn, lines 58-72, also
recording the identifiers actually queried, in order.  Only `CFResult.found`
returns from the loop; every other outcome (empty response, "does not exist"
ClientError, any other ClientError, any other exception) is logged at most and
the next candidate is tried; an exhausted loop yields the empty string. -/
def tryIdentifiers (cfLookup : String → CFResult) : List String → String × List String
  | [] => ("", [])
  | rid :: rest =>
    match cfLookup rid with
    | CFResult.found s => (s, [rid])
    | _ =>
      let r := tryIdentifiers cfLookup rest
      (r.1, rid :: r.2)

/-- Tag-lookup strategy shared verbatim by the resolvers (sqs_audit.py lines
34-47, step_functions_audit.py lines 36-49): a raised tag fetch, an absent
"aws:cloudformation:stack-name" tag, or a falsy (empty) tag value is a miss. -/
def tag_strategy (tagsResult : Except Unit (List (String × String))) : Option String :=
  match tagsResult with
  | Except.error _ => none
  | Except.ok tags =>
    match lookupTag tags "aws:cloudformation:stack-name" with
    | some v => if v = "" then none else some v
    | none => none

/-- SQSAuditor.get_stack_name_from_arn, src/aws_audit/sqs/sqs_audit.py lines
28-77.  `tagsResult` models the sqs list_queue_tags call (error = raised);
`cfLookup` models describe_stack_resources per candidate identifier.  The
result pairs the returned stack name with the trace of cloudformation
identifiers queried. -/
def sqs_get_stack_name_from_arn (tagsResult : Except Unit (List (String × String)))
    (cfLookup : String → CFResult) (resource_arn : String) (queue_url : String) :
    String × List String :=
  match tag_strategy tagsResult with
  | some v => (v, [])
  | none =>
    let url := if queue_url = "" then arn_to_url resource_arn else queue_url
    tryIdentifiers cfLookup [url, (strSplit ':' resource_arn).getLastD "", resource_arn]

/-- StepFunctionsAuditor.get_stack_name_from_arn, src/aws_audit/step_functions/
step_functions_audit.py lines 29-68: the same tag strategy followed by a single
cloudformation candidate (the identifier computation of line 53 is folded into
the injected `cf` outcome); when both strategies miss the function returns
Python None, modelled as `none`.  A non-ClientError exception of the inner
lookup reaches the outer handler of lines 65-66 with the same outcome. -/
def sfn_get_stack_name_from_arn (tagsResult : Except Unit (List (String × String)))
    (cf : CFResult) : Option String :=
  match tag_strategy tagsResult with
  | some v => some v
  | none =>
    match cf with
    | CFResult.found s => some s
    | _ => none

/-- Per-function loop of LambdaAuditor.audit_functions, src/aws_audit/lambda/
lambda_audit.py lines 144-177.  `enrich` models the body of the per-function
try block; on `Except.error` the failure is only logged (lines 175-176) and no
row is appended for that function. -/
def lambda_audit_functions {α β : Type} (enrich : α → Except Unit β) :
    List α → List β
  | [] => []
  | f :: rest =>
    match enrich f with
    | Except.ok row => row :: lambda_audit_functions enrich rest
    | Except.error _ => lambda_audit_functions enrich rest

/-- Per-API detail loop of APIGatewayAuditor.get_rest_apis, src/aws_audit/
api_gateway/api_gateway_audit.py lines 154-231.  `enrich` models the detail
block of lines 161-210; on `Except.error` an explicit error row built from the
basic API info is appended (lines 212-228) and the loop continues. -/
def apigw_get_rest_apis {α β : Type} (enrich : α → Except Unit β) (errorRow : α → β) :
    List α → List β
  | [] => []
  | a :: rest =>
    match enrich a with
    | Except.ok row => row :: apigw_get_rest_apis enrich errorRow rest
    | Except.error _ => errorRow a :: apigw_get_rest_apis enrich errorRow rest

/-- Bucket filter of S3Auditor.get_all_buckets, src/aws_audit/s3/s3_audit.py
lines 284-286: AWS log buckets are skipped before any enrichment. -/
def skip_aws_logs_bucket (bucket_name : String) : Bool :=
  strStartsWith bucket_name "aws-" &&
    (strContains bucket_name "logs" || strContains bucket_name "logging")

/-- Per-bucket loop of S3Auditor.get_all_buckets, src/aws_audit/s3/s3_audit.py
lines 279-346: a bucket matching the filter is skipped with continue before any
enrichment; otherwise `enrich` models the rest of the try body, whose failure
is logged and the bucket dropped (lines 344-346). -/
def s3_get_all_buckets {β : Type} (enrich : String → Except Unit β) :
    List String → List β
  | [] => []
  | b :: rest =>
    if skip_aws_logs_bucket b then s3_get_all_buckets enrich rest
    else
      match enrich b with
      | Except.ok row => row :: s3_get_all_buckets enrich rest
      | Except.error _ => s3_get_all_buckets enrich rest

/-- Helper query for the claim C4 witness: the stage "b" raises, every other
stage returns one data point of 10. -/
def c4query : String → Except Unit (List Int) :=
  fun stage => if stage = "b" then Except.error () else Except.ok [10]

/-- Helper lookup for the claim C7 counterexample: a non-"does not exist"
ClientError (a transport error) for the queue URL candidate, a match for the
queue name candidate. -/
def c7lookup : String → CFResult :=
  fun rid =>
    if rid = "qurl" then CFResult.clientError
    else if rid = "myq" then CFResult.found "real-stack"
    else CFResult.notFoundError

/-- Helper enrichment for the claim C8 witness: the resource 2 raises, every
other resource yields itself as its row. -/
def c8enrich : Nat → Except Unit Nat :=
  fun n => if n = 2 then Except.error () else Except.ok n

/-- Helper error-row builder for the claim C8 witness. -/
def c8errorRow : Nat → Nat :=
  fun n => n + 100

/-- Helper enrichment for the claim C10 witness: every bucket yields its own
name as its row. -/
def c10enrich : String → Except Unit String :=
  fun b => Except.ok b

end AwsAudit

namespace AwsAudit

/-- Claim C9: tag evidence takes priority over name evidence. For the name
"svc-orders-prod" with no tags, both the Lambda and the S3 classifier return
"prod"; with the tag environment=staging both return "staging". -/
theorem claim_C9 :
    lambda_get_environment "svc-orders-prod" [] = "prod" ∧
    lambda_get_environment "svc-orders-prod" [("environment", "staging")] = "staging" ∧
    s3_get_environment_from_name "svc-orders-prod" [] = "prod" ∧
    s3_get_environment_from_name "svc-orders-prod" [("environment", "staging")] = "staging" := by
  refine ⟨?_, ?_, ?_, ?_⟩ <;> rfl

/-- Claim C1, counterexample: the Lambda classifier returns the raw lowercased
tag value with no validation against the enumerated set, and its fallback is
"all", which is also outside the set. -/
theorem claim_C1_cex :
    lambda_get_environment "orders-handler" [("env", "Custom-Value")] = "custom-value" ∧
    ("custom-value" ∉ environmentLabels) ∧
    lambda_get_environment "orders-handler" [] = "all" ∧
    ("all" ∉ environmentLabels) := by
  refine ⟨rfl, by decide, rfl, by decide⟩

/-- Claim C1, amended: the DynamoDB name-based classification is total over the
enumerated label set {dev, prod, staging, test, qa, uat, preprod, unknown};
the Lambda classifier does not validate tag values and falls back to "all"
(see the counterexample). -/
theorem claim_C1_thm (table_name : String) :
    dynamodb_environment table_name ∈ environmentLabels := by
  have hsub : ∀ p, p ∈ env_indicators → p ∈ environmentLabels := by
    intro p hp
    fin_cases hp <;> decide
  unfold dynamodb_environment
  cases hfind : (strSplit '-' (strToLower table_name)).find?
      (fun part => decide (part ∈ env_indicators)) with
  | none => decide
  | some part =>
    have hp := List.find?_some hfind
    exact hsub part (of_decide_eq_true hp)

/-- Claim C2, counterexample: the Lambda invocation aggregator records 0, not
the failure sentinel -1, when its statistics query raises, so its failure
result is not distinguishable by equality from a legitimate zero. -/
theorem claim_C2_cex :
    lambda_invocations_for_period (Except.error ()) = 0 ∧
    lambda_invocations_for_period (Except.ok []) = 0 ∧
    ((0 : Int) ≠ -1) := by
  refine ⟨rfl, rfl, by decide⟩

/-- Claim C2, amended: the SQS 30-day message count aggregator returns the
legitimate value 0 on zero data buckets and the sentinel -1, distinguishable
from 0, on a raised query; the Lambda invocation aggregator instead records 0
on a raised query. -/
theorem claim_C2_thm :
    get_message_count_30d (Except.ok []) = 0 ∧
    get_message_count_30d (Except.error ()) = -1 ∧
    ((-1 : Int) ≠ 0) ∧
    lambda_invocations_for_period (Except.error ()) = 0 := by
  refine ⟨rfl, rfl, by decide, rfl⟩

/-- Claim C3, counterexample: when stage discovery raises, the fan-out
aggregator returns 0, the initialized TotalRequests value, not the failure
sentinel -1 — even when a per-stage query would have returned data. -/
theorem claim_C3_cex :
    get_api_metrics_30d (Except.error ()) (fun _ => Except.ok [5]) = 0 ∧
    ((0 : Int) ≠ -1) := by
  refine ⟨rfl, by decide⟩

/-- Claim C3, amended: when discovery of the deployment stages fails, the
fan-out aggregator returns 0 immediately, independent of the per-stage query
behavior; the -1 sentinel is produced only by the outer handler for unexpected
exceptions. -/
theorem claim_C3_thm (query : String → Except Unit (List Int)) :
    get_api_metrics_30d (Except.error ()) query = 0 := rfl

/-- Claim C4: when discovery succeeds, a sub-resource whose query raises is
excluded from the sum — the aggregate over the full stage list equals the
aggregate with the failing stage removed — and zero discovered stages yield a
legitimate 0. -/
theorem claim_C4 (query : String → Except Unit (List Int)) (pre post : List String)
    (s : String) (hfail : query s = Except.error ()) :
    get_api_metrics_30d (Except.ok (pre ++ s :: post)) query =
      get_api_metrics_30d (Except.ok (pre ++ post)) query ∧
    get_api_metrics_30d (Except.ok []) query = 0 := by
  constructor
  · simp [get_api_metrics_30d, stage_requests, hfail]
  · rfl

/-- Claim C4, witness: stages ["a", "b", "c"] where the query for "b" raises
and "a", "c" each return one data point of 10. -/
theorem claim_C4_witness :
    get_api_metrics_30d (Except.ok ["a", "b", "c"]) c4query =
      get_api_metrics_30d (Except.ok ["a", "c"]) c4query ∧
    get_api_metrics_30d (Except.ok []) c4query = 0 :=
  claim_C4 c4query ["a"] ["c"] "b" rfl

/-- The candidate loop returns either the empty string or a stack name that the
registry reported for one of the candidate identifiers. -/
theorem tryIdentifiers_sound (cfLookup : String → CFResult) (ids : List String) :
    (tryIdentifiers cfLookup ids).1 = "" ∨
      ∃ rid, cfLookup rid = CFResult.found (tryIdentifiers cfLookup ids).1 := by
  induction ids with
  | nil => exact Or.inl rfl
  | cons rid rest ih =>
    cases h : cfLookup rid with
    | found s => exact Or.inr ⟨rid, by simp [tryIdentifiers, h]⟩
    | empty => simpa [tryIdentifiers, h] using ih
    | notFoundError => simpa [tryIdentifiers, h] using ih
    | clientError => simpa [tryIdentifiers, h] using ih
    | otherError => simpa [tryIdentifiers, h] using ih

/-- The tag strategy misses or yields the value of the reserved tag of an
ok tag fetch. -/
theorem tag_strategy_sound (tagsResult : Except Unit (List (String × String))) :
    tag_strategy tagsResult = none ∨
      ∃ tags v, tagsResult = Except.ok tags ∧
        lookupTag tags "aws:cloudformation:stack-name" = some v ∧
        tag_strategy tagsResult = some v := by
  cases tagsResult with
  | error e => exact Or.inl rfl
  | ok tags =>
    cases hv : lookupTag tags "aws:cloudformation:stack-name" with
    | none => exact Or.inl (by simp [tag_strategy, hv])
    | some v =>
      by_cases he : v = ""
      · exact Or.inl (by simp [tag_strategy, hv, he])
      · exact Or.inr ⟨tags, v, rfl, hv, by simp [tag_strategy, hv, he]⟩

/-- Claim C5, counterexample: when the tag fetcher returns the reserved
"aws:cloudformation:stack-name" key with an empty (falsy) value, the SQS
resolver does not short-circuit: the registry lookup is invoked (the trace of
queried identifiers is non-empty) and its result, not the tag value, is
returned. -/
theorem claim_C5_cex :
    (sqs_get_stack_name_from_arn (Except.ok [("aws:cloudformation:stack-name", "")])
        (fun _ => CFResult.found "other-stack") "arn:aws:sqs:r:a:q" "u").1 = "other-stack" ∧
    (sqs_get_stack_name_from_arn (Except.ok [("aws:cloudformation:stack-name", "")])
        (fun _ => CFResult.found "other-stack") "arn:aws:sqs:r:a:q" "u").2 ≠ [] := by
  refine ⟨rfl, by decide⟩

/-- Claim C5, amended: when the tag fetcher returns the reserved
"aws:cloudformation:stack-name" key with a non-empty value, the resolver
returns that value and the registry lookup is never invoked (empty query
trace), whatever the registry would answer; an empty tag value is treated as
a miss and the later strategies run. -/
theorem claim_C5_thm (tags : List (String × String)) (v arn url : String)
    (cfLookup : String → CFResult)
    (hget : lookupTag tags "aws:cloudformation:stack-name" = some v) (hv : v ≠ "") :
    sqs_get_stack_name_from_arn (Except.ok tags) cfLookup arn url = (v, []) := by
  have hts : tag_strategy (Except.ok tags) = some v := by
    simp [tag_strategy, hget, hv]
  simp [sqs_get_stack_name_from_arn, hts]

/-- Claim C5, witness: a concrete tag dictionary carrying the reserved key with
value "orders-stack" short-circuits a registry that would answer
"other-stack". -/
theorem claim_C5_witness :
    sqs_get_stack_name_from_arn (Except.ok [("aws:cloudformation:stack-name", "orders-stack")])
        (fun _ => CFResult.found "other-stack") "arn:aws:sqs:r:a:q" "u" =
      ("orders-stack", []) :=
  claim_C5_thm [("aws:cloudformation:stack-name", "orders-stack")] "orders-stack"
    "arn:aws:sqs:r:a:q" "u" (fun _ => CFResult.found "other-stack") rfl (by decide)

/-- Claim C6: for every behavior of the injected tag fetcher and registry
lookup, including both raising, the resolvers return a plain value and never
propagate an exception.  The SQS resolver returns the empty string
("unmanaged") or a value produced by one of its strategies; the Step Functions
resolver returns none ("unmanaged") or a strategy value; in particular, when
both collaborators raise, the results are exactly "" and none. -/
theorem claim_C6 (tagsResult : Except Unit (List (String × String)))
    (cfLookup : String → CFResult) (cf : CFResult) (arn url : String) :
    ((sqs_get_stack_name_from_arn tagsResult cfLookup arn url).1 = "" ∨
      (∃ tags, tagsResult = Except.ok tags ∧
        lookupTag tags "aws:cloudformation:stack-name" =
          some (sqs_get_stack_name_from_arn tagsResult cfLookup arn url).1) ∨
      (∃ rid, cfLookup rid =
        CFResult.found (sqs_get_stack_name_from_arn tagsResult cfLookup arn url).1)) ∧
    (sfn_get_stack_name_from_arn tagsResult cf = none ∨
      (∃ tags s, sfn_get_stack_name_from_arn tagsResult cf = some s ∧
        ((tagsResult = Except.ok tags ∧
            lookupTag tags "aws:cloudformation:stack-name" = some s) ∨
          cf = CFResult.found s))) ∧
    (sqs_get_stack_name_from_arn (Except.error ()) (fun _ => CFResult.otherError)
        arn url).1 = "" ∧
    sfn_get_stack_name_from_arn (Except.error ()) CFResult.otherError = none := by
  refine ⟨?_, ?_, rfl, rfl⟩
  · rcases tag_strategy_sound tagsResult with hts | ⟨tags, v, htr, hget, hts⟩
    · rcases tryIdentifiers_sound cfLookup
          [if url = "" then arn_to_url arn else url,
            (strSplit ':' arn).getLastD "", arn] with hloop | ⟨rid, hrid⟩
      · exact Or.inl (by simpa [sqs_get_stack_name_from_arn, hts] using hloop)
      · exact Or.inr (Or.inr ⟨rid, by simpa [sqs_get_stack_name_from_arn, hts] using hrid⟩)
    · subst htr
      exact Or.inr (Or.inl ⟨tags, rfl, by simp [sqs_get_stack_name_from_arn, hts, hget]⟩)
  · rcases tag_strategy_sound tagsResult with hts | ⟨tags, v, htr, hget, hts⟩
    · cases hc : cf with
      | found s =>
        exact Or.inr ⟨[], s, by simp [sfn_get_stack_name_from_arn, hts], Or.inr rfl⟩
      | empty => exact Or.inl (by simp [sfn_get_stack_name_from_arn, hts])
      | notFoundError => exact Or.inl (by simp [sfn_get_stack_name_from_arn, hts])
      | clientError => exact Or.inl (by simp [sfn_get_stack_name_from_arn, hts])
      | otherError => exact Or.inl (by simp [sfn_get_stack_name_from_arn, hts])
    · subst htr
      exact Or.inr ⟨tags, v, by simp [sfn_get_stack_name_from_arn, hts],
        Or.inl ⟨rfl, hget⟩⟩

/-- Claim C7, counterexample: a transport error (a ClientError whose text does
not contain "does not exist") for the first candidate identifier does not
short-circuit the resolver with an empty result — the next candidate is still
queried and its match is returned. -/
theorem claim_C7_cex :
    sqs_get_stack_name_from_arn (Except.error ()) c7lookup "arn:aws:sqs:r:a:myq" "qurl" =
      ("real-stack", ["qurl", "myq"]) := by
  rfl

/-- Claim C7, amended: candidates are tried in order and no per-candidate
outcome other than a found match — neither a "does not exist" response nor a
transport error nor any other exception — aborts the loop: the candidate is
recorded in the trace and the loop result is that of the remaining
candidates. -/
theorem claim_C7_thm (cfLookup : String → CFResult) (rid : String) (rest : List String)
    (h : ∀ s, cfLookup rid ≠ CFResult.found s) :
    (tryIdentifiers cfLookup (rid :: rest)).1 = (tryIdentifiers cfLookup rest).1 ∧
    (tryIdentifiers cfLookup (rid :: rest)).2 =
      rid :: (tryIdentifiers cfLookup rest).2 := by
  cases hc : cfLookup rid with
  | found s => exact absurd hc (h s)
  | empty => simp [tryIdentifiers, hc]
  | notFoundError => simp [tryIdentifiers, hc]
  | clientError => simp [tryIdentifiers, hc]
  | otherError => simp [tryIdentifiers, hc]

/-- Claim C7, witness: a single candidate answering "does not exist" is
recorded and the loop falls through to the empty result. -/
theorem claim_C7_witness :
    (tryIdentifiers (fun _ => CFResult.notFoundError) ["a"]).1 =
      (tryIdentifiers (fun _ => CFResult.notFoundError) ([] : List String)).1 ∧
    (tryIdentifiers (fun _ => CFResult.notFoundError) ["a"]).2 =
      "a" :: (tryIdentifiers (fun _ => CFResult.notFoundError) ([] : List String)).2 :=
  claim_C7_thm (fun _ => CFResult.notFoundError) "a" []
    (fun _ hs => CFResult.noConfusion hs)

/-- Concatenation law of the API Gateway per-API loop. -/
theorem apigw_append {α β : Type} (enrich : α → Except Unit β) (errorRow : α → β)
    (l1 l2 : List α) :
    apigw_get_rest_apis enrich errorRow (l1 ++ l2) =
      apigw_get_rest_apis enrich errorRow l1 ++ apigw_get_rest_apis enrich errorRow l2 := by
  induction l1 with
  | nil => rfl
  | cons a rest ih =>
    cases h : enrich a with
    | ok row => simp [apigw_get_rest_apis, h, ih]
    | error e => simp [apigw_get_rest_apis, h, ih]

/-- Concatenation law of the Lambda per-function loop. -/
theorem lambda_audit_append {α β : Type} (enrich : α → Except Unit β) (l1 l2 : List α) :
    lambda_audit_functions enrich (l1 ++ l2) =
      lambda_audit_functions enrich l1 ++ lambda_audit_functions enrich l2 := by
  induction l1 with
  | nil => rfl
  | cons a rest ih =>
    cases h : enrich a with
    | ok row => simp [lambda_audit_functions, h, ih]
    | error e => simp [lambda_audit_functions, h, ih]

/-- Claim C8, counterexample: in the Lambda row builder a failed resource
yields no row at all — the batch [1, 2, 3] with resource 2 failing produces
only the two successful rows, with nothing recorded for 2. -/
theorem claim_C8_cex :
    lambda_audit_functions c8enrich [1, 2, 3] = [1, 3] := by
  rfl

/-- Claim C8, amended: a failure enriching one resource never aborts the
remaining resources of the batch in either row builder; the API Gateway REST
builder records an explicit error row for the failed resource alongside the
successful rows, while the Lambda builder only logs the failure and emits no
row for it. -/
theorem claim_C8_thm {α β : Type} (enrich : α → Except Unit β) (errorRow : α → β)
    (pre post : List α) (a : α) (h : enrich a = Except.error ()) :
    apigw_get_rest_apis enrich errorRow (pre ++ a :: post) =
      apigw_get_rest_apis enrich errorRow pre ++
        errorRow a :: apigw_get_rest_apis enrich errorRow post ∧
    lambda_audit_functions enrich (pre ++ a :: post) =
      lambda_audit_functions enrich pre ++ lambda_audit_functions enrich post := by
  constructor
  · rw [apigw_append]
    simp [apigw_get_rest_apis, h]
  · rw [lambda_audit_append]
    simp [lambda_audit_functions, h]

/-- Claim C8, witness: batch [1, 2, 3] with resource 2 failing. -/
theorem claim_C8_witness :
    apigw_get_rest_apis c8enrich c8errorRow ([1] ++ 2 :: [3]) =
      apigw_get_rest_apis c8enrich c8errorRow [1] ++
        c8errorRow 2 :: apigw_get_rest_apis c8enrich c8errorRow [3] ∧
    lambda_audit_functions c8enrich ([1] ++ 2 :: [3]) =
      lambda_audit_functions c8enrich [1] ++ lambda_audit_functions c8enrich [3] :=
  claim_C8_thm c8enrich c8errorRow [1] [3] 2 rfl

/-- Concatenation law of the S3 per-bucket loop. -/
theorem s3_buckets_append {β : Type} (enrich : String → Except Unit β)
    (l1 l2 : List String) :
    s3_get_all_buckets enrich (l1 ++ l2) =
      s3_get_all_buckets enrich l1 ++ s3_get_all_buckets enrich l2 := by
  induction l1 with
  | nil => rfl
  | cons b rest ih =>
    cases hskip : skip_aws_logs_bucket b with
    | true => simp [s3_get_all_buckets, hskip, ih]
    | false =>
      cases h : enrich b with
      | ok row => simp [s3_get_all_buckets, hskip, h, ih]
      | error e => simp [s3_get_all_buckets, hskip, h, ih]

/-- Claim C10: a listed bucket whose name starts with "aws-" and contains
"logs" or "logging" contributes no row — the output equals that of the listing
with the bucket removed — while a bucket not matching the filter is processed:
its enrichment row appears in place among the others. -/
theorem claim_C10_thm {β : Type} (enrich : String → Except Unit β)
    (pre post : List String) (b g : String) (r : β)
    (hskip : skip_aws_logs_bucket b = true)
    (hkeep : skip_aws_logs_bucket g = false)
    (hok : enrich g = Except.ok r) :
    s3_get_all_buckets enrich (pre ++ b :: post) =
      s3_get_all_buckets enrich (pre ++ post) ∧
    s3_get_all_buckets enrich (pre ++ g :: post) =
      s3_get_all_buckets enrich pre ++ r :: s3_get_all_buckets enrich post := by
  constructor
  · rw [s3_buckets_append, s3_buckets_append]
    simp [s3_get_all_buckets, hskip]
  · rw [s3_buckets_append]
    simp [s3_get_all_buckets, hkeep, hok]

/-- Claim C10, witness: "aws-app-logs" is filtered out, "my-app-data" is
processed and keeps its row. -/
theorem claim_C10_witness :
    s3_get_all_buckets c10enrich (["x-data"] ++ "aws-app-logs" :: ["y-data"]) =
      s3_get_all_buckets c10enrich (["x-data"] ++ ["y-data"]) ∧
    s3_get_all_buckets c10enrich (["x-data"] ++ "my-app-data" :: ["y-data"]) =
      s3_get_all_buckets c10enrich ["x-data"] ++
        "my-app-data" :: s3_get_all_buckets c10enrich ["y-data"] :=
  claim_C10_thm c10enrich ["x-data"] ["y-data"] "aws-app-logs" "my-app-data"
    "my-app-data" (by decide) (by decide) rfl

end AwsAudit
